import Mathlib

/-!
Verification development for the AliBaba product scraper (src/scraper.py).

The Python code is shallowly embedded: HTML documents are modelled as
element trees, the regex-over-class heuristics as character-level pattern
checks, the fallible network fetch as an explicit outcome value, and the
page loop of AliBabaScraper.search_products as a fold over per-page
outcomes.  Python string operations are character based, so they are
embedded as executable functions over List Char rather than the byte-based
Lean standard library functions.
-/

/-! ## Character-level string operations (Python str semantics) -/

/-- Lower-casing of one ASCII character, as done by re.IGNORECASE on the
ASCII class names the scraper matches. -/
def lowerChar (c : Char) : Char :=
  if c.toNat ≥ 65 && c.toNat ≤ 90 then Char.ofNat (c.toNat + 32) else c

/-- Lower-casing of a character list. -/
def lowerL (l : List Char) : List Char := l.map lowerChar

/-- Lower-casing of a string (ASCII, which covers every pattern used by the
scraper). -/
def strLower (s : String) : String := ⟨lowerL s.data⟩

/-- Python str.startswith on character lists. -/
def startsWithL : List Char → List Char → Bool
  | _, [] => true
  | [], _ :: _ => false
  | c :: cs, p :: ps => c == p && startsWithL cs ps

/-- Substring containment on character lists; embeds re.search of a literal
pattern with no operators. -/
def containsL (l pat : List Char) : Bool :=
  match l with
  | [] => startsWithL [] pat
  | _ :: cs => startsWithL l pat || containsL cs pat

/-- Python "pat in s" / re.search of a literal pattern. -/
def strContains (s pat : String) : Bool := containsL s.data pat.data

/-- Python str.startswith. -/
def strStarts (s p : String) : Bool := startsWithL s.data p.data

/-- Whitespace test covering the whitespace the scraped fixtures use;
embeds the default str.strip character class. -/
def isSpaceChar (c : Char) : Bool := c == ' ' || c == '\t' || c == '\n' || c == '\r'

/-- Python str.strip(): drop leading and trailing whitespace. -/
def strTrim (s : String) : String :=
  ⟨((s.data.dropWhile isSpaceChar).reverse.dropWhile isSpaceChar).reverse⟩

/-- Python slicing s[:n] (character based). -/
def strTake (s : String) (n : Nat) : String := ⟨s.data.take n⟩

/-- Case-insensitive match of the alternation pattern given by pats
(re.search with re.I of p1|p2|..., each pi a lower-case literal). -/
def containsAnyCI (s : String) (pats : List String) : Bool :=
  pats.any (fun p => strContains (strLower s) p)

/-- Holds when the list contains "min" followed (not necessarily
adjacently) by "order"; embeds re.search of Min.*Order after
lower-casing. -/
def minThenOrder : List Char → Bool
  | [] => false
  | c :: cs =>
      (startsWithL (c :: cs) ['m', 'i', 'n'] && containsL ((c :: cs).drop 3) ['o', 'r', 'd', 'e', 'r'])
        || minThenOrder cs

/-- Embeds re.search(r"MOQ|Min.*Order", s, re.I) from
src/scraper.py:148. -/
def moqStringMatch (s : String) : Bool :=
  strContains (strLower s) "moq" || minThenOrder (strLower s).data

/-! ## Document model

A parsed HTML document (the BeautifulSoup tree) is a forest of nodes;
an element node carries its tag, its attribute list and its children. -/

/-- One node of the parsed document tree. -/
inductive Node where
  | elem (tag : String) (attrs : List (String × String)) (children : List Node)
  | text (s : String)
deriving Repr

mutual

/-- Embeds elem.get_text(strip=True): the concatenation of the stripped
text fragments of the subtree, in document order. -/
def getTextStrip : Node → String
  | .text s => strTrim s
  | .elem _ _ cs => getTextStripList cs

/-- Text collection over a list of sibling nodes. -/
def getTextStripList : List Node → String
  | [] => ""
  | c :: cs => getTextStrip c ++ getTextStripList cs

end

mutual

/-- All strict descendants of a node, in document (preorder) order: the
search space of elem.find / elem.find_all. -/
def descendants : Node → List Node
  | .text _ => []
  | .elem _ _ cs => preorderList cs

/-- Each node of the list followed by its descendants, in document order. -/
def preorderList : List Node → List Node
  | [] => []
  | c :: cs => c :: descendants c ++ preorderList cs

end

/-- Attribute lookup on an element; none on text nodes or absent keys. -/
def attrOf (n : Node) (k : String) : Option String :=
  match n with
  | .elem _ attrs _ => (attrs.find? (fun p => p.1 == k)).map (fun p => p.2)
  | .text _ => none

/-- Tag test; false on text nodes. -/
def isTag (n : Node) (t : String) : Bool :=
  match n with
  | .elem tag _ _ => tag == t
  | .text _ => false

/-- Tag-in-list test, embedding find(["h2", "h3", "h4"], ...). -/
def tagIn (n : Node) (ts : List String) : Bool := ts.any (isTag n)

/-- Attribute-presence test, embedding find(..., href=True). -/
def hasAttr (n : Node) (k : String) : Bool := (attrOf n k).isSome

/-- Embeds the class_=re.compile(p1|p2|..., re.I) filters: the node is an
element carrying a class attribute whose value matches the pattern. -/
def classAttrMatches (pats : List String) (n : Node) : Bool :=
  match attrOf n "class" with
  | some c => containsAnyCI c pats
  | none => false

/-- Embeds item.find(...): the first descendant, in document order,
satisfying the filter. -/
def findDesc (item : Node) (p : Node → Bool) : Option Node :=
  (descendants item).find? p

/-- The string of a text node. -/
def textOf (n : Node) : Option String :=
  match n with
  | .text s => some s
  | .elem _ _ _ => none

/-! ## Field Extractor (AliBabaScraper._extract_product_data, src/scraper.py:136-186) -/

/-- Site root, src/scraper.py:23. -/
def base_url : String := "https://www.alibaba.com"

/-- Filter of the title lookup (src/scraper.py:140): heading tag with a
class matching title|name|product (case-insensitive). -/
def titleMatch (n : Node) : Bool :=
  tagIn n ["h2", "h3", "h4"] && classAttrMatches ["title", "name", "product"] n

/-- Filter of the price lookup (src/scraper.py:144). -/
def priceMatch (n : Node) : Bool := classAttrMatches ["price", "cost", "amount"] n

/-- Filter of the supplier lookup (src/scraper.py:152). -/
def supplierMatch (n : Node) : Bool := classAttrMatches ["supplier", "seller", "company"] n

/-- Filter of the rating lookup (src/scraper.py:171). -/
def ratingMatch (n : Node) : Bool := classAttrMatches ["rating", "star", "review"] n

/-- Filter of the link lookup (src/scraper.py:156): an anchor carrying an
href attribute. -/
def anchorHrefMatch (n : Node) : Bool := isTag n "a" && hasAttr n "href"

/-- Filter of the image lookup (src/scraper.py:165): an img carrying a
src attribute. -/
def imgSrcMatch (n : Node) : Bool := isTag n "img" && hasAttr n "src"

/-- Embeds item.find(string=re.compile(r"MOQ|Min.*Order", re.I))
(src/scraper.py:148): the first descendant text node matching the
pattern, yielding its string. -/
def findMoqText (item : Node) : Option String :=
  (descendants item).findSome? (fun n =>
    match n with
    | .text s => if moqStringMatch s then some s else none
    | .elem _ _ _ => none)

/-- One row of the listing output. Each field of the Python dict built at
src/scraper.py:174-183 becomes a field here. -/
structure ProductRecord where
  title : String
  price : String
  moq : String
  supplier : String
  link : String
  image_url : String
  rating : String
  source : String
deriving Repr, DecidableEq

/-- Embeds AliBabaScraper._extract_product_data (src/scraper.py:136-186).
Every lookup is independent; a missing element defaults the field to its
sentinel.  The try/except returning None (lines 185-186) is unreachable on
tree values, and the record dict is non-empty hence always truthy, so the
embedding always produces a record. -/
def extract_product_data (item : Node) : ProductRecord :=
  let title :=
    match findDesc item titleMatch with
    | some e => getTextStrip e
    | none => "No Title"
  let price :=
    match findDesc item priceMatch with
    | some e => getTextStrip e
    | none => "Price NA"
  let moq :=
    match findMoqText item with
    | some s => strTrim s
    | none => "MOQ NA"
  let supplier :=
    match findDesc item supplierMatch with
    | some e => getTextStrip e
    | none => "Supplier NA"
  let link :=
    match findDesc item anchorHrefMatch with
    | some e =>
        let l := (attrOf e "href").getD ""
        if strStarts l "http" then l else base_url ++ l
    | none => "#"
  let img_url :=
    match findDesc item imgSrcMatch with
    | some e => (attrOf e "src").getD ""
    | none => ""
  let img_url := if !(img_url == "") && !(strStarts img_url "http") then "https:" ++ img_url else img_url
  let rating :=
    match findDesc item ratingMatch with
    | some e => getTextStrip e
    | none => "No Rating"
  { title := title, price := price, moq := moq, supplier := supplier,
    link := link, image_url := img_url, rating := rating, source := "Alibaba" }

/-! ## Parsed documents and the Selector Resolution Engine -/

/-- A parsed document (BeautifulSoup object) as the pipeline observes it:
css gives the result list of soup.select for each CSS selector string (in
document order), and nodes is the forest of top-level nodes over which
soup.find / soup.find_all search. -/
structure Soup where
  css : String → List Node
  nodes : List Node

/-- All nodes of the document in document order: the search space of
soup.find and soup.find_all. -/
def docNodes (soup : Soup) : List Node := preorderList soup.nodes

/-- The listing-item selector cascade of src/scraper.py:110-116. -/
def listing_selectors : List String :=
  ["div[data-content*=\"product\"]", ".item-content", ".product-card",
   ".organic-list", "div[component=\"product\"]"]

/-- Embeds the cascade loop of src/scraper.py:118-121: evaluate the
selectors in order and stop at the first non-empty match set.  When every
selector misses, the loop leaves the last (empty) result in items, which
equals the empty list this function returns. -/
def resolveCascade (css : String → List Node) : List String → List Node
  | [] => []
  | s :: rest =>
      let items := css s
      if items.isEmpty then resolveCascade css rest else items

/-- Specification-side restatement of the cascade semantics, written from
the spec sentence: the match set of the first strategy with at least one
match, and empty when all strategies miss. -/
def resolveSpec (css : String → List Node) (C : List String) : List Node :=
  match C.find? (fun s => !(css s).isEmpty) with
  | some s => css s
  | none => []

/-- Embeds AliBabaScraper._parse_search_page (src/scraper.py:105-134):
resolve the listing cascade, take at most 20 item elements, and extract a
record from each.  The per-item try/except continue (lines 127-132) and
the if product: guard never fire on tree values, since the embedded
extractor is total and the record dict is always truthy. -/
def parse_search_page (soup : Soup) : List ProductRecord :=
  let items := resolveCascade soup.css listing_selectors
  if items.isEmpty then []
  else (items.take 20).map extract_product_data

/-! ## Pagination Orchestrator (AliBabaScraper.search_products, src/scraper.py:48-103) -/

/-- The three run counters of src/scraper.py:25-29. -/
structure Stats where
  products_scraped : Nat
  pages_scraped : Nat
  errors : Nat
deriving Repr, DecidableEq

/-- Counter state of a freshly constructed scraper (src/scraper.py:25-29). -/
def init_stats : Stats := { products_scraped := 0, pages_scraped := 0, errors := 0 }

/-- Reasons the fetch of one page raises: requests timeout, connection
failure, or raise_for_status on a non-2xx response
(src/scraper.py:69-74). -/
inductive TransportFault where
  | timeout
  | connectionFailure
  | badStatus
deriving Repr, DecidableEq

/-- Outcome of the fetch-and-parse prefix of one iteration of the page
loop: either an exception before a document is available (a transport
fault from requests, or a parser failure from BeautifulSoup - both land in
the same except handler at src/scraper.py:92-95), or a parsed document. -/
inductive PageOutcome where
  | transportError (e : TransportFault)
  | parseFailure
  | page (doc : Soup)

/-- One iteration of the page loop of src/scraper.py:61-95 acting on the
accumulated record list and the counters: an exception increments errors
and contributes nothing (except: ... continue); a parsed document is fed
to _parse_search_page, and only a non-empty record batch is accumulated
and counted (the if products: guard at line 82).  The inter-page sleep and
the prints have no effect on this state. -/
def pageStep (acc : List ProductRecord × Stats) (o : PageOutcome) : List ProductRecord × Stats :=
  match o with
  | .transportError _ => (acc.1, { acc.2 with errors := acc.2.errors + 1 })
  | .parseFailure => (acc.1, { acc.2 with errors := acc.2.errors + 1 })
  | .page doc =>
      let products := parse_search_page doc
      if products.isEmpty then acc
      else (acc.1 ++ products,
        { acc.2 with pages_scraped := acc.2.pages_scraped + 1,
                     products_scraped := acc.2.products_scraped + products.length })

/-- Embeds AliBabaScraper.search_products (src/scraper.py:48-103) for a
fresh scraper: fold the page loop over the per-page outcomes (one entry
per requested page, in page order), then stamp every accumulated record
with the single datetime.now() string taken after the loop
(src/scraper.py:100); scraped_at is that string.  An empty accumulation
yields the empty DataFrame, here the empty list. -/
def search_products (outcomes : List PageOutcome) (scraped_at : String) :
    List (ProductRecord × String) × Stats :=
  let r := outcomes.foldl pageStep ([], init_stats)
  (r.1.map (fun p => (p, scraped_at)), r.2)

/-! ## Detail Enrichment Extractor (src/scraper.py:188-294) -/

/-- Embeds the select_one cascades of _extract_description,
_extract_shipping and _extract_response_time: first selector whose
select_one yields an element. -/
def firstSelectOne (css : String → List Node) : List String → Option Node
  | [] => none
  | s :: rest =>
      match (css s).head? with
      | some e => some e
      | none => firstSelectOne css rest

/-- Selector cascade of _extract_description (src/scraper.py:218-223). -/
def description_selectors : List String :=
  [".product-description", ".detail-desc", "[data-content=\"description\"]",
   ".description-content"]

/-- Embeds AliBabaScraper._extract_description (src/scraper.py:216-230):
text of the first matching content region truncated to 1000 characters,
with a sentinel when every selector misses. -/
def extract_description (soup : Soup) : String :=
  match firstSelectOne soup.css description_selectors with
  | some e => strTake (getTextStrip e) 1000
  | none => "Description not available"

/-- Filter of the specification-table lookup (src/scraper.py:237). -/
def specTableMatch (n : Node) : Bool :=
  isTag n "table" && classAttrMatches ["spec", "parameter"] n

/-- Python dict insertion specs[key] = value on an association list kept
in insertion order: overwrite in place when the key exists, append
otherwise. -/
def dictInsert (d : List (String × String)) (k v : String) : List (String × String) :=
  if d.any (fun p => p.1 == k) then d.map (fun p => if p.1 == k then (k, v) else p)
  else d ++ [(k, v)]

/-- Body of the row loop of _extract_specifications
(src/scraper.py:240-245): a row with at least two td cells contributes its
first two cell texts as a key-value pair. -/
def specStep (specs : List (String × String)) (row : Node) : List (String × String) :=
  match (descendants row).filter (fun n => isTag n "td") with
  | c0 :: c1 :: _ => dictInsert specs (getTextStrip c0) (getTextStrip c1)
  | _ => specs

/-- Embeds AliBabaScraper._extract_specifications (src/scraper.py:232-247):
read the qualifying rows of the first specification-style table into a
mapping, and return the single status entry instead of an empty mapping. -/
def extract_specifications (soup : Soup) : List (String × String) :=
  let specs :=
    match (docNodes soup).find? specTableMatch with
    | some spec_table =>
        let rows := (descendants spec_table).filter (fun n => isTag n "tr")
        rows.foldl specStep []
    | none => []
  if specs.isEmpty then [("status", "No specifications found")] else specs

/-- Selector cascade of _extract_shipping (src/scraper.py:251-255). -/
def shipping_selectors : List String :=
  [".shipping-info", ".logistics-content", ".delivery-info"]

/-- Embeds AliBabaScraper._extract_shipping (src/scraper.py:249-262). -/
def extract_shipping (soup : Soup) : String :=
  match firstSelectOne soup.css shipping_selectors with
  | some e => strTake (getTextStrip e) 500
  | none => "Shipping information not available"

/-- Filter of the image lookup of _extract_images (src/scraper.py:267):
img elements whose src matches product|detail|gallery
(case-insensitive). -/
def imgTagMatch (n : Node) : Bool :=
  isTag n "img" &&
    (match attrOf n "src" with
     | some s => containsAnyCI s ["product", "detail", "gallery"]
     | none => false)

/-- Body of the image loop of _extract_images (src/scraper.py:269-274):
keep a non-empty, non-inline source, absolutizing a non-http source with
an https: prefix. -/
def imgStep (images : List String) (img : Node) : List String :=
  let src := (attrOf img "src").getD ""
  if !(src == "") && !(strStarts src "data:") then
    images ++ [if strStarts src "http" then src else "https:" ++ src]
  else images

/-- Embeds AliBabaScraper._extract_images (src/scraper.py:264-276): filter
the matching img tags, truncate to the first 10, and collect their
qualifying sources. -/
def extract_images (soup : Soup) : List String :=
  let img_tags := (docNodes soup).filter imgTagMatch
  (img_tags.take 10).foldl imgStep []

/-- Selector cascade of _extract_response_time (src/scraper.py:280-284).
The per-selector try/except of lines 286-292 swallows selector-engine
failures; in the embedding css is total, so every attempt runs. -/
def response_time_selectors : List String :=
  ["span:contains(\"response\")", "div:contains(\"Response Time\")",
   "li:contains(\"response\")"]

/-- Embeds AliBabaScraper._extract_response_time (src/scraper.py:278-294). -/
def extract_response_time (soup : Soup) : String :=
  match firstSelectOne soup.css response_time_selectors with
  | some e => getTextStrip e
  | none => "Response time not specified"

/-- The detail dict built by get_product_details (src/scraper.py:200-208),
one field per key. -/
structure DetailRecord where
  url : String
  description : String
  specifications : List (String × String)
  shipping_info : String
  images : List String
  response_time : String
  detail_scraped_at : String
deriving Repr, DecidableEq

/-- Outcome of the detail-page fetch (src/scraper.py:191-196): a transport
fault (timeout, connection failure, or raise_for_status on a non-2xx
response), or the parsed document. -/
inductive FetchOutcome where
  | failure (e : TransportFault)
  | success (doc : Soup)

/-- Embeds AliBabaScraper.get_product_details (src/scraper.py:188-214).
On a fetch fault the except handler returns the empty dict, modelled as
none; the method never touches the run counters, so they pass through
unchanged on every path.  now is the datetime.now().isoformat() string of
line 207. -/
def get_product_details (o : FetchOutcome) (product_url now : String) (stats : Stats) :
    Option DetailRecord × Stats :=
  match o with
  | .failure _ => (none, stats)
  | .success soup =>
      (some { url := product_url,
              description := extract_description soup,
              specifications := extract_specifications soup,
              shipping_info := extract_shipping soup,
              images := extract_images soup,
              response_time := extract_response_time soup,
              detail_scraped_at := now }, stats)

/-! ## Specification-side observers of a Run -/

/-- Page outcome that landed in the except handler of the page loop (a
transport fault or a parser failure). -/
def pageFaulted : PageOutcome → Bool
  | .transportError _ => true
  | .parseFailure => true
  | .page _ => false

/-- Page outcome that completed the fetch-and-parse prefix without a
TransportError, as the spec counts pages. -/
def completedPage : PageOutcome → Bool
  | .page _ => true
  | .transportError _ => false
  | .parseFailure => false

/-- Page outcome that completed and whose cascade plus extraction yielded
at least one record: the pages the code actually counts in
pages_scraped. -/
def pageYields : PageOutcome → Bool
  | .page d => !(parse_search_page d).isEmpty
  | .transportError _ => false
  | .parseFailure => false

/-- The parsed document of a successful page outcome. -/
def pageDoc : PageOutcome → Option Soup
  | .page d => some d
  | .transportError _ => none
  | .parseFailure => none

/-- Outcome list of an N-page Run in which every page before or after one
fetch fault succeeds: the pages of A, then the faulted page, then the
pages of B (so N = A.length + 1 + B.length). -/
def oneFaultRun (A B : List Soup) (e : TransportFault) : List PageOutcome :=
  A.map PageOutcome.page ++ [PageOutcome.transportError e] ++ B.map PageOutcome.page

/-- The key-value pairs of the qualifying rows of the first
specification-style table of the document: for each tr with at least two
td cells, the stripped texts of its first two cells. -/
def qualifyingPairs (soup : Soup) : List (String × String) :=
  match (docNodes soup).find? specTableMatch with
  | some spec_table =>
      ((descendants spec_table).filter (fun n => isTag n "tr")).filterMap (fun row =>
        match (descendants row).filter (fun n => isTag n "td") with
        | c0 :: c1 :: _ => some (getTextStrip c0, getTextStrip c1)
        | _ => none)
  | none => []

/-! ## Concrete documents used as witnesses and counterexamples -/

/-- A parsed page on which every selector misses: the cascade matches no
item anywhere. -/
def emptySoup : Soup := { css := fun _ => [], nodes := [] }

/-- A listing item element with a classed heading, a classed price, an
anchor with a root-relative href and an image with a protocol-relative
source. -/
def itemNode : Node :=
  Node.elem "div" []
    [Node.elem "h2" [("class", "product-title")] [Node.text " Blue Widget "],
     Node.elem "span" [("class", "item-price")] [Node.text " $4.99 "],
     Node.elem "a" [("href", "/p/blue-widget")] [Node.text "view"],
     Node.elem "img" [("src", "//cdn.alibaba.com/img/blue.jpg")] []]

/-- A parsed page whose cascade matches exactly the one item above. -/
def oneItemSoup : Soup := { css := fun _ => [itemNode], nodes := [] }

/-- An item whose first anchor has a protocol-relative href and whose
first image has a root-relative source. -/
def protoRelItem : Node :=
  Node.elem "div" []
    [Node.elem "a" [("href", "//cdn.x.com/a.jpg")] [],
     Node.elem "img" [("src", "/p/a.jpg")] []]

/-- A detail document containing no table at all. -/
def noSpecSoup : Soup :=
  { css := fun _ => [], nodes := [Node.elem "div" [] [Node.text "plain"]] }

/-! ## Helper lemmas about the page fold -/

theorem foldl_pageStep_errors (l : List PageOutcome) (acc : List ProductRecord × Stats) :
    (l.foldl pageStep acc).2.errors = acc.2.errors + l.countP pageFaulted := by
  induction l generalizing acc with
  | nil => simp
  | cons o rest ih =>
      cases o with
      | transportError e =>
          simp only [List.foldl_cons, List.countP_cons, pageStep, ih, pageFaulted]
          simp
          omega
      | parseFailure =>
          simp only [List.foldl_cons, List.countP_cons, pageStep, ih, pageFaulted]
          simp
          omega
      | page d =>
          by_cases h : (parse_search_page d).isEmpty = true <;>
            simp only [List.foldl_cons, List.countP_cons, pageStep, ih, pageFaulted, h] <;>
            simp [h]

theorem foldl_pageStep_pages (l : List PageOutcome) (acc : List ProductRecord × Stats) :
    (l.foldl pageStep acc).2.pages_scraped = acc.2.pages_scraped + l.countP pageYields := by
  induction l generalizing acc with
  | nil => simp
  | cons o rest ih =>
      cases o with
      | transportError e =>
          simp only [List.foldl_cons, List.countP_cons, pageStep, ih, pageYields]
          simp
      | parseFailure =>
          simp only [List.foldl_cons, List.countP_cons, pageStep, ih, pageYields]
          simp
      | page d =>
          by_cases h : (parse_search_page d).isEmpty = true
          · simp only [List.foldl_cons, List.countP_cons, pageStep, ih, pageYields, h]
            simp [h]
          · simp only [List.foldl_cons, List.countP_cons, pageStep, ih, pageYields, h]
            simp [h]
            omega

theorem foldl_pageStep_products (l : List PageOutcome) (acc : List ProductRecord × Stats) :
    (l.foldl pageStep acc).2.products_scraped
      = acc.2.products_scraped
          + ((l.filterMap pageDoc).map (fun d => (parse_search_page d).length)).sum := by
  induction l generalizing acc with
  | nil => simp
  | cons o rest ih =>
      cases o with
      | transportError e =>
          simp only [List.foldl_cons, List.filterMap_cons, pageStep, ih, pageDoc]
      | parseFailure =>
          simp only [List.foldl_cons, List.filterMap_cons, pageStep, ih, pageDoc]
      | page d =>
          by_cases h : (parse_search_page d).isEmpty = true
          · have hnil : parse_search_page d = [] := List.isEmpty_iff.mp h
            simp only [List.foldl_cons, List.filterMap_cons, pageStep, h, ih, pageDoc,
              if_pos rfl]
            simp [hnil]
          · simp only [List.foldl_cons, List.filterMap_cons, pageStep, h, ih, pageDoc]
            simp [h]
            omega

theorem foldl_pageStep_rows (l : List PageOutcome) (acc : List ProductRecord × Stats) :
    (l.foldl pageStep acc).1
      = acc.1 ++ ((l.filterMap pageDoc).map parse_search_page).flatten := by
  induction l generalizing acc with
  | nil => simp
  | cons o rest ih =>
      cases o with
      | transportError e =>
          simp only [List.foldl_cons, List.filterMap_cons, pageStep, ih, pageDoc]
      | parseFailure =>
          simp only [List.foldl_cons, List.filterMap_cons, pageStep, ih, pageDoc]
      | page d =>
          by_cases h : (parse_search_page d).isEmpty = true
          · have hnil : parse_search_page d = [] := List.isEmpty_iff.mp h
            simp only [List.foldl_cons, List.filterMap_cons, pageStep, h, ih, pageDoc,
              if_pos rfl]
            simp [hnil]
          · simp only [List.foldl_cons, List.filterMap_cons, pageStep, h, ih, pageDoc]
            simp [h, List.append_assoc]

/-! ## Claim C1 -/

/-- Claim C1, counterexample: on a one-page Run whose single page fetches
and parses successfully but whose cascade matches no item, the code leaves
pages_scraped at 0, while the claim requires it to equal the number of
completed pages, namely 1. -/
theorem C1_counterexample :
    ¬ ((search_products [PageOutcome.page emptySoup] "t").2.pages_scraped
        = List.countP completedPage [PageOutcome.page emptySoup]) := by
  decide

/-- Claim C1 as amended: the final pages_scraped equals the number of
pages that completed fetch and parse AND yielded at least one record (the
if products: guard at src/scraper.py:82 skips the counter update on
zero-result pages), and errors counts exactly the faulted pages, so
zero-result pages leave both pages_scraped and errors unchanged. -/
theorem C1_pages_scraped_semantics (outcomes : List PageOutcome) (ts : String) :
    (search_products outcomes ts).2.pages_scraped = outcomes.countP pageYields ∧
    (search_products outcomes ts).2.errors = outcomes.countP pageFaulted := by
  constructor
  · simp [search_products, foldl_pageStep_pages, init_stats]
  · simp [search_products, foldl_pageStep_errors, init_stats]

/-! ## Claim C2 -/

/-- Claim C2, counterexample: a 2-page Run where page 1 times out and page
2 completes (with an empty cascade match) has errors = 1 but
pages_scraped = 0, not N - 1 = 1 as the claim requires. -/
theorem C2_counterexample :
    (search_products [PageOutcome.transportError TransportFault.timeout,
        PageOutcome.page emptySoup] "t").2.errors = 1 ∧
    ¬ ((search_products [PageOutcome.transportError TransportFault.timeout,
        PageOutcome.page emptySoup] "t").2.pages_scraped = 2 - 1) := by
  constructor
  · decide
  · decide

/-- Claim C2 as amended: in an N-page Run where exactly one page raises a
transport fault and every other page succeeds AND yields at least one
record, the run processes every remaining page, the failed page
contributes nothing, errors = 1, pages_scraped = N - 1, and
products_scraped is the sum of the successful pages' record counts. -/
theorem filterMap_pageDoc_map_page (L : List Soup) :
    List.filterMap (pageDoc ∘ PageOutcome.page) L = L := by
  induction L with
  | nil => rfl
  | cons a t ih => simp [pageDoc, Function.comp, ih]

theorem countP_pageFaulted_map_page (L : List Soup) :
    List.countP (pageFaulted ∘ PageOutcome.page) L = 0 := by
  induction L with
  | nil => rfl
  | cons a t ih => simp [pageFaulted, Function.comp, List.countP_cons, ih]

theorem countP_pageYields_map_page (L : List Soup) :
    List.countP (pageYields ∘ PageOutcome.page) L
      = L.countP (fun d => !(parse_search_page d).isEmpty) := by
  induction L with
  | nil => rfl
  | cons a t ih => simp [pageYields, Function.comp, List.countP_cons, ih]

theorem C2_failure_isolation (A B : List Soup) (e : TransportFault) (ts : String)
    (hA : ∀ d ∈ A, (parse_search_page d).isEmpty = false)
    (hB : ∀ d ∈ B, (parse_search_page d).isEmpty = false) :
    (search_products (oneFaultRun A B e) ts).2.errors = 1 ∧
    (search_products (oneFaultRun A B e) ts).2.pages_scraped
      = (oneFaultRun A B e).length - 1 ∧
    (search_products (oneFaultRun A B e) ts).2.products_scraped
      = ((A ++ B).map (fun d => (parse_search_page d).length)).sum ∧
    (search_products (oneFaultRun A B e) ts).1
      = (((A ++ B).map parse_search_page).flatten).map (fun p => (p, ts)) := by
  have hdocs : (oneFaultRun A B e).filterMap pageDoc = A ++ B := by
    simp [oneFaultRun, List.filterMap_append, filterMap_pageDoc_map_page, pageDoc]
  have herr : (oneFaultRun A B e).countP pageFaulted = 1 := by
    simp [oneFaultRun, List.countP_append, countP_pageFaulted_map_page, pageFaulted,
      List.countP_cons]
  have ha : A.countP (fun d => !(parse_search_page d).isEmpty) = A.length :=
    List.countP_eq_length.mpr (fun d hd => by simp [hA d hd])
  have hb : B.countP (fun d => !(parse_search_page d).isEmpty) = B.length :=
    List.countP_eq_length.mpr (fun d hd => by simp [hB d hd])
  have hpg : (oneFaultRun A B e).countP pageYields = A.length + B.length := by
    simp [oneFaultRun, List.countP_append, countP_pageYields_map_page, pageYields,
      List.countP_cons, ha, hb]
  have hlen : (oneFaultRun A B e).length = A.length + 1 + B.length := by
    simp [oneFaultRun]
    omega
  refine ⟨?_, ?_, ?_, ?_⟩
  · simp [search_products, foldl_pageStep_errors, init_stats, herr]
  · simp only [search_products, foldl_pageStep_pages, init_stats, hpg, hlen]
    omega
  · simp [search_products, foldl_pageStep_products, init_stats, hdocs]
  · simp [search_products, foldl_pageStep_rows, init_stats, hdocs]

/-- Claim C2, witness: the amended statement instantiated on the concrete
3-page Run (good page, timeout, good page). -/
theorem C2_failure_isolation_witness :
    (search_products (oneFaultRun [oneItemSoup] [oneItemSoup] TransportFault.timeout) "t").2.errors = 1 ∧
    (search_products (oneFaultRun [oneItemSoup] [oneItemSoup] TransportFault.timeout) "t").2.pages_scraped
      = (oneFaultRun [oneItemSoup] [oneItemSoup] TransportFault.timeout).length - 1 := by
  have h := C2_failure_isolation [oneItemSoup] [oneItemSoup] TransportFault.timeout "t"
    (by intro d hd; rw [List.mem_singleton] at hd; subst hd; decide)
    (by intro d hd; rw [List.mem_singleton] at hd; subst hd; decide)
  exact ⟨h.1, h.2.1⟩

/-! ## Claim C3 -/

theorem resolveCascade_eq_resolveSpec (css : String → List Node) :
    ∀ C, resolveCascade css C = resolveSpec css C := by
  intro C
  induction C with
  | nil => rfl
  | cons s rest ih =>
      by_cases h : (css s).isEmpty = true
      · simp [resolveCascade, resolveSpec, List.find?_cons, h] at ih ⊢
        exact ih
      · simp [resolveCascade, resolveSpec, List.find?_cons, h]

/-- Claim C3: on every document and every (non-empty, as all the cascades
of the program are) selector cascade, the resolution loop returns exactly
the match set of the first strategy with at least one match, with no
merging and no further fallback, and the empty sequence when every
strategy misses (resolveSpec covers both cases); and resolution is
deterministic - any equal select behaviour gives an equal result. -/
theorem C3_first_match_wins (css css2 : String → List Node) (s : String) (rest : List String)
    (hsame : ∀ t, css2 t = css t) :
    resolveCascade css (s :: rest) = resolveSpec css (s :: rest) ∧
    resolveCascade css2 (s :: rest) = resolveCascade css (s :: rest) := by
  refine ⟨resolveCascade_eq_resolveSpec css (s :: rest), ?_⟩
  have hdet : ∀ C, resolveCascade css2 C = resolveCascade css C := by
    intro C
    induction C with
    | nil => rfl
    | cons a t ih =>
        simp only [resolveCascade]
        rw [hsame a, ih]
  exact hdet (s :: rest)

/-- Claim C3, witness: the theorem applied to the listing cascade of the
code on a document matching the first selector. -/
theorem C3_first_match_wins_witness :
    resolveCascade (fun _ => [itemNode]) listing_selectors
      = resolveSpec (fun _ => [itemNode]) listing_selectors ∧
    resolveCascade (fun _ => [itemNode]) listing_selectors
      = resolveCascade (fun _ => [itemNode]) listing_selectors := by
  have h := C3_first_match_wins (fun _ => [itemNode]) (fun _ => [itemNode])
    "div[data-content*=\"product\"]"
    [".item-content", ".product-card", ".organic-list", "div[component=\"product\"]"]
    (fun t => rfl)
  exact ⟨by simpa [listing_selectors] using h.1, rfl⟩

/-! ## Claim C4 -/

/-- Claim C4: a record extracted from any item element has every one of
its seven fields populated - with the text (or absolutized attribute) of
the first descendant matched by that field's own independent lookup, and
with the field's fixed sentinel when the lookup misses.  Each right-hand
side depends only on that one field's lookup, so a missing price element
leaves every other field extracted normally from the same item. -/
theorem C4_field_sentinels (item : Node) :
    (extract_product_data item).title = (match findDesc item titleMatch with
        | some e => getTextStrip e
        | none => "No Title") ∧
    (extract_product_data item).price = (match findDesc item priceMatch with
        | some e => getTextStrip e
        | none => "Price NA") ∧
    (extract_product_data item).moq = (match findMoqText item with
        | some s => strTrim s
        | none => "MOQ NA") ∧
    (extract_product_data item).supplier = (match findDesc item supplierMatch with
        | some e => getTextStrip e
        | none => "Supplier NA") ∧
    (extract_product_data item).link = (match findDesc item anchorHrefMatch with
        | some e =>
            if strStarts ((attrOf e "href").getD "") "http" then (attrOf e "href").getD ""
            else base_url ++ (attrOf e "href").getD ""
        | none => "#") ∧
    (extract_product_data item).image_url = (match findDesc item imgSrcMatch with
        | some e =>
            if (attrOf e "src").getD "" == "" then ""
            else if strStarts ((attrOf e "src").getD "") "http" then (attrOf e "src").getD ""
            else "https:" ++ (attrOf e "src").getD ""
        | none => "") ∧
    (extract_product_data item).rating = (match findDesc item ratingMatch with
        | some e => getTextStrip e
        | none => "No Rating") := by
  refine ⟨rfl, rfl, rfl, rfl, rfl, ?_, rfl⟩
  simp only [extract_product_data]
  cases h : findDesc item imgSrcMatch with
  | none => simp
  | some e =>
      by_cases h0 : ((attrOf e "src").getD "" == "") = true
      · have h0e : (attrOf e "src").getD "" = "" := by simpa using h0
        simp [h0, h0e]
      · by_cases h1 : strStarts ((attrOf e "src").getD "") "http" = true
        · simp [h0, h1]
        · simp [h0, h1]

/-! ## Claim C5 -/

/-- Claim C5, counterexample: on an item whose first anchor href is
protocol-relative and whose first image source is root-relative, the code
produces link = base_url ++ href (not an https-absolutized host) and
image_url = "https:" ++ path (not a base-resolved URL), contradicting the
claim's uniform absolutization of links and image sources. -/
theorem C5_counterexample :
    (extract_product_data protoRelItem).link = "https://www.alibaba.com//cdn.x.com/a.jpg" ∧
    (extract_product_data protoRelItem).link ≠ "https://cdn.x.com/a.jpg" ∧
    (extract_product_data protoRelItem).image_url = "https:/p/a.jpg" ∧
    (extract_product_data protoRelItem).image_url ≠ base_url ++ "/p/a.jpg" := by
  refine ⟨by decide, by decide, by decide, by decide⟩

theorem startsWithL_append_of_starts (a b pre : List Char) (h : startsWithL a pre = true) :
    startsWithL (a ++ b) pre = true := by
  induction pre generalizing a with
  | nil => simp [startsWithL]
  | cons p ps ih =>
      cases a with
      | nil => simp [startsWithL] at h
      | cons c cs =>
          simp only [List.cons_append, startsWithL, Bool.and_eq_true] at h ⊢
          exact ⟨h.1, ih cs h.2⟩

theorem strStarts_base_url_append (l : String) : strStarts (base_url ++ l) "http" = true := by
  have hd : (base_url ++ l).data = base_url.data ++ l.data := rfl
  rw [strStarts, hd]
  exact startsWithL_append_of_starts _ _ _ (by decide)

theorem strStarts_https_append (s : String) :
    strStarts ("https:" ++ s) "http" = true := by
  have hd : (("https:" : String) ++ s).data = ("https:" : String).data ++ s.data := rfl
  rw [strStarts, hd]
  exact startsWithL_append_of_starts _ _ _ (by decide)

/-- Claim C5 as amended: links and image sources are absolutized by two
different rules - an href not starting with "http" (root-relative OR
protocol-relative) is prefixed with the site base URL, while an img source
not starting with "http" (protocol-relative OR root-relative) is prefixed
with "https:"; an already absolute value is returned unchanged; and the
resulting link is always "#" or an http-prefixed string, the resulting
image_url always "" or an http-prefixed string. -/
theorem C5_absolutization (item : Node) :
    ((extract_product_data item).link = (match findDesc item anchorHrefMatch with
        | some e =>
            if strStarts ((attrOf e "href").getD "") "http" then (attrOf e "href").getD ""
            else base_url ++ (attrOf e "href").getD ""
        | none => "#")) ∧
    ((extract_product_data item).image_url = (match findDesc item imgSrcMatch with
        | some e =>
            if (attrOf e "src").getD "" == "" then ""
            else if strStarts ((attrOf e "src").getD "") "http" then (attrOf e "src").getD ""
            else "https:" ++ (attrOf e "src").getD ""
        | none => "")) ∧
    ((extract_product_data item).link = "#"
      ∨ strStarts (extract_product_data item).link "http" = true) ∧
    ((extract_product_data item).image_url = ""
      ∨ strStarts (extract_product_data item).image_url "http" = true) := by
  refine ⟨rfl, ?_, ?_, ?_⟩
  · simp only [extract_product_data]
    cases h : findDesc item imgSrcMatch with
    | none => simp
    | some e =>
        by_cases h0 : ((attrOf e "src").getD "" == "") = true
        · have h0e : (attrOf e "src").getD "" = "" := by simpa using h0
          simp [h0, h0e]
        · by_cases h1 : strStarts ((attrOf e "src").getD "") "http" = true
          · simp [h0, h1]
          · simp [h0, h1]
  · simp only [extract_product_data]
    cases h : findDesc item anchorHrefMatch with
    | none => simp
    | some e =>
        by_cases h1 : strStarts ((attrOf e "href").getD "") "http" = true
        · simp [h1]
        · simp [h1, strStarts_base_url_append]
  · simp only [extract_product_data]
    cases h : findDesc item imgSrcMatch with
    | none => simp
    | some e =>
        by_cases h0 : ((attrOf e "src").getD "" == "") = true
        · have h0e : (attrOf e "src").getD "" = "" := by simpa using h0
          simp [h0, h0e]
        · by_cases h1 : strStarts ((attrOf e "src").getD "") "http" = true
          · simp [h0, h1]
          · simp [h0, h1, strStarts_https_append]

/-! ## Claim C6 -/

theorem imgFold_length_le (l : List Node) (acc : List String) :
    (l.foldl imgStep acc).length ≤ acc.length + l.length := by
  induction l generalizing acc with
  | nil => simp
  | cons a t ih =>
      have hstep : (imgStep acc a).length ≤ acc.length + 1 := by
        simp only [imgStep]
        by_cases h : (!((attrOf a "src").getD "" == "")
            && !(strStarts ((attrOf a "src").getD "") "data:")) = true
        · simp [h]
        · simp [h]
      have hrec := ih (imgStep acc a)
      simp only [List.foldl_cons, List.length_cons]
      omega

/-- Claim C6: a listing page never yields more than 20 records however
many item elements the cascade matched (the items[:20] truncation at
src/scraper.py:126), and a detail document never yields more than 10 image
URLs however many img tags qualify (the img_tags[:10] truncation at
src/scraper.py:269). -/
theorem C6_caps (soup : Soup) :
    (parse_search_page soup).length ≤ 20 ∧ (extract_images soup).length ≤ 10 := by
  constructor
  · by_cases h : (resolveCascade soup.css listing_selectors).isEmpty = true
    · simp [parse_search_page, h]
    · have heq : parse_search_page soup
          = ((resolveCascade soup.css listing_selectors).take 20).map extract_product_data := by
        simp [parse_search_page, h]
      rw [heq, List.length_map]
      exact List.length_take_le _ _
  · unfold extract_images
    refine le_trans (imgFold_length_le _ _) ?_
    have := List.length_take_le 10 ((docNodes soup).filter imgTagMatch)
    simp only [List.length_nil]
    omega

/-! ## Claim C7 -/

theorem specStep_foldl_eq (rows : List Node) (d : List (String × String)) :
    rows.foldl specStep d
      = (rows.filterMap (fun row =>
          match (descendants row).filter (fun n => isTag n "td") with
          | c0 :: c1 :: _ => some (getTextStrip c0, getTextStrip c1)
          | _ => none)).foldl (fun d p => dictInsert d p.1 p.2) d := by
  induction rows generalizing d with
  | nil => rfl
  | cons r t ih =>
      simp only [List.foldl_cons, List.filterMap_cons]
      cases hc : (descendants r).filter (fun n => isTag n "td") with
      | nil => simp [specStep, hc, ih]
      | cons c0 rest =>
          cases rest with
          | nil => simp [specStep, hc, ih]
          | cons c1 rest2 => simp [specStep, hc, ih]

theorem dictInsert_ne_nil (d : List (String × String)) (k v : String) :
    dictInsert d k v ≠ [] := by
  by_cases h : d.any (fun p => p.1 == k) = true
  · cases d with
    | nil => simp at h
    | cons a t => simp [dictInsert, h]
  · simp [dictInsert, h]

theorem pairFold_ne_nil (ps : List (String × String)) (d : List (String × String))
    (hd : d ≠ []) : ps.foldl (fun d p => dictInsert d p.1 p.2) d ≠ [] := by
  induction ps generalizing d with
  | nil => exact hd
  | cons p t ih => exact ih _ (dictInsert_ne_nil _ _ _)

/-- Claim C7: the specifications extractor never returns an empty mapping;
when no specification table matches or no table row has at least two
cells (that is, when there are no qualifying pairs) it returns exactly
the single status entry, and otherwise it returns the mapping built from
the first-cell/second-cell texts of the qualifying rows. -/
theorem C7_specifications (soup : Soup) :
    extract_specifications soup ≠ [] ∧
    (qualifyingPairs soup = [] →
      extract_specifications soup = [("status", "No specifications found")]) ∧
    (qualifyingPairs soup ≠ [] →
      extract_specifications soup
        = (qualifyingPairs soup).foldl (fun d p => dictInsert d p.1 p.2) []) := by
  have hval : extract_specifications soup
      = (if ((qualifyingPairs soup).foldl (fun d p => dictInsert d p.1 p.2) []).isEmpty
         then [("status", "No specifications found")]
         else (qualifyingPairs soup).foldl (fun d p => dictInsert d p.1 p.2) []) := by
    cases h : (docNodes soup).find? specTableMatch with
    | none => simp [extract_specifications, qualifyingPairs, h]
    | some t => simp [extract_specifications, qualifyingPairs, h, specStep_foldl_eq]
  have hne : qualifyingPairs soup ≠ [] →
      (qualifyingPairs soup).foldl (fun d p => dictInsert d p.1 p.2) [] ≠ [] := by
    intro h
    cases hq : qualifyingPairs soup with
    | nil => exact absurd hq h
    | cons p t =>
        simp only [List.foldl_cons]
        exact pairFold_ne_nil t _ (dictInsert_ne_nil [] p.1 p.2)
  refine ⟨?_, ?_, ?_⟩
  · rw [hval]
    by_cases h : qualifyingPairs soup = []
    · simp [h]
    · have hne2 := hne h
      rw [if_neg (fun hh => hne2 (List.isEmpty_iff.mp hh))]
      exact hne2
  · intro h
    rw [hval]
    simp [h]
  · intro h
    rw [hval]
    exact if_neg (fun hh => (hne h) (List.isEmpty_iff.mp hh))

/-- Claim C7, witness: the theorem applied to a detail document with no
table, whose hypothesis (no qualifying pairs) holds by computation. -/
theorem C7_specifications_witness :
    extract_specifications noSpecSoup = [("status", "No specifications found")] :=
  (C7_specifications noSpecSoup).2.1 (by decide)

/-! ## Claim C8 -/

/-- Claim C8: for every per-page outcome list - faults injected at any
subset of pages - the listing pipeline is a total function into a record
sequence and counters. Its output is fully characterised: the record
sequence is exactly the concatenation of the successful pages' batches
(so the worst case is the empty sequence), and faults surface only
through the errors counter.  Every Python fault of the loop body lands in
an except handler (src/scraper.py:92-95, 127-132, 185-186): the first is
the transport/parse constructors of PageOutcome, and the last two are
unreachable for the total embedded extractor. -/
theorem C8_no_fault_propagation (outcomes : List PageOutcome) (ts : String) :
    (search_products outcomes ts).1
      = ((outcomes.filterMap pageDoc).map parse_search_page).flatten.map (fun p => (p, ts)) ∧
    (search_products outcomes ts).2.errors = outcomes.countP pageFaulted ∧
    (search_products outcomes ts).2.products_scraped
      = ((outcomes.filterMap pageDoc).map (fun d => (parse_search_page d).length)).sum := by
  refine ⟨?_, ?_, ?_⟩
  · simp [search_products, foldl_pageStep_rows, init_stats]
  · simp [search_products, foldl_pageStep_errors, init_stats]
  · simp [search_products, foldl_pageStep_products, init_stats]

/-! ## Claim C9 -/

/-- Claim C9: any two records returned by the same Run carry the identical
scraped_at string - the timestamp is attached once, after the page loop,
to every accumulated record (src/scraper.py:100), never per record or per
page. -/
theorem C9_uniform_timestamp (outcomes : List PageOutcome) (ts : String)
    (r1 r2 : ProductRecord × String)
    (h1 : r1 ∈ (search_products outcomes ts).1)
    (h2 : r2 ∈ (search_products outcomes ts).1) :
    r1.2 = r2.2 := by
  have e1 : r1.2 = ts := by
    simp only [search_products] at h1
    obtain ⟨p, hp, hpe⟩ := List.mem_map.mp h1
    rw [← hpe]
  have e2 : r2.2 = ts := by
    simp only [search_products] at h2
    obtain ⟨p, hp, hpe⟩ := List.mem_map.mp h2
    rw [← hpe]
  rw [e1, e2]

/-- Claim C9, witness: the theorem applied to a concrete one-page Run and
the record it returns. -/
theorem C9_uniform_timestamp_witness :
    ((extract_product_data itemNode, "t") : ProductRecord × String).2
      = ((extract_product_data itemNode, "t") : ProductRecord × String).2 :=
  C9_uniform_timestamp [PageOutcome.page oneItemSoup] "t"
    (extract_product_data itemNode, "t") (extract_product_data itemNode, "t")
    (by decide) (by decide)

/-! ## Claim C10 -/

/-- Claim C10: when the detail-page fetch fails - timeout, connection
failure or non-2xx status - get_product_details returns the empty mapping
(none, carrying no DetailRecord field at all) and leaves the run counters
exactly as they were. -/
theorem C10_detail_fetch_failure (e : TransportFault) (product_url now : String) (st : Stats) :
    get_product_details (FetchOutcome.failure e) product_url now st = (none, st) := rfl
